import Mathlib

/-!
Shallow embedding of the txn-manager ledger engine.

The Rust sources embedded here are:
  * `src/models/transaction.rs` — request types and `validate_positive_amount`;
  * `src/models/decimal.rs` — the `SqlxDecimal` wrapper whose decode/parse
    falls back to `Decimal::ZERO` when the stored text does not parse;
  * `src/services/account_service.rs` — `create_account`, `update_balance`;
  * `src/services/transaction_service.rs` — `process_transfer`,
    `process_deposit`, `process_withdrawal`, `create_transaction`,
    `update_account_balance`;
  * `src/api/transactions.rs`, `src/api/accounts.rs` — the HTTP handlers,
    which run request validation and ownership checks before invoking the
    services.

Modelling conventions:
  * `rust_decimal::Decimal` amounts are arbitrary-precision decimals; every
    operation the engine performs on them is exact addition, subtraction or
    comparison, all uniform under the fixed decimal scale, so amounts are
    modelled as exact integers (`Int`, read as minor units).
  * UUIDs are modelled as `Nat`; the freshly generated `Uuid::new_v4()` of a
    transaction record is passed in as an explicit `txnId` argument.
  * A database store transaction that returns an error is rolled back by the
    driver, so every operation is a pure function returning
    `Except AppError (newState × result)`; on `error` no new state is
    produced, which is exactly the total-rollback semantics.  In addition,
    each engine operation returns the list of store-level `Event`s it issued
    up to the point of success or failure, so that claims about *when* a
    failure happens (before a lock, before a write, before the store
    transaction opens) are statements about the event trace.
  * Each account carries `balParses : Bool`, recording whether the stored
    `balance::TEXT` parses as a `rust_decimal::Decimal`
    (`.parse().unwrap_or(Decimal::ZERO)` in the source); `parsedBalance`
    mirrors that fallback.  Values written by the engine itself are written
    from `Decimal::to_string()` and therefore re-parse, so the flag is set
    on every engine write.  The SQL-level increment
    `balance = balance + $x` operates on the true NUMERIC value and keeps
    the stored text parsable (overflow past rust_decimal's 96-bit mantissa
    is not modelled).
  * Timestamps (`created_at`, `updated_at`) play no part in any claim and
    are omitted from the records.
-/

deriving instance DecidableEq for Except

namespace TxnManager

/-- Monetary amounts (`rust_decimal::Decimal`): exact arithmetic, modelled as
integers in minor units. -/
abbrev Decimal := Int

/-- An account row (`src/models/account.rs`).  `balParses` models whether the
stored `balance::TEXT` parses as a `rust_decimal::Decimal`. -/
structure Account where
  id : Nat
  user_id : Nat
  balance : Decimal
  balParses : Bool
  currency : String
deriving Repr, DecidableEq

/-- A transaction audit record (`src/models/transaction.rs`). -/
structure Txn where
  id : Nat
  sender_account_id : Option Nat
  receiver_account_id : Option Nat
  amount : Decimal
  currency : String
  transaction_type : String
  status : String
  description : Option String
deriving Repr, DecidableEq

/-- The relational store: the `users`, `accounts` and `transactions` tables. -/
structure Store where
  users : List Nat
  accounts : List Account
  txns : List Txn
deriving Repr, DecidableEq

/-- The error type (`src/utils/error.rs`, `AppError`).  The taxonomy names of
the spec map onto constructors and messages as the code produces them:
InsufficientFunds is `badRequest "Insufficient funds"`, CurrencyMismatch is
`badRequest "Currency mismatch between accounts"`, SelfTransfer is
`badRequest "Cannot transfer to the same account"`, InvalidAmount is the
`validation` error raised by the API handlers. -/
inductive AppError where
  | auth (msg : String)
  | forbidden (msg : String)
  | notFound (msg : String)
  | badRequest (msg : String)
  | conflict (msg : String)
  | internal (msg : String)
  | database (msg : String)
  | validation (msg : String)
deriving Repr, DecidableEq

/-- Store-level events issued by an operation, in order.  `beginTx` is
`pool.begin()`, `lockRow i` is a `SELECT ... WHERE id = i FOR UPDATE`,
`readBalanceText i` is the raw `SELECT balance::TEXT ... FOR UPDATE` re-read,
`insertTxn` / `sqlUpdateBalance` / `setTxnStatus` are the corresponding
INSERT/UPDATE statements, and `commit` is `tx.commit()`. -/
inductive Event where
  | beginTx
  | lockRow (accountId : Nat)
  | readBalanceText (accountId : Nat)
  | insertTxn (txnId : Nat)
  | sqlUpdateBalance (accountId : Nat)
  | setTxnStatus (txnId : Nat)
  | commit
deriving Repr, DecidableEq

/-- `TransferRequest` (`src/models/transaction.rs`). -/
structure TransferRequest where
  sender_account_id : Nat
  receiver_account_id : Nat
  amount : Decimal
  description : Option String
deriving Repr, DecidableEq

/-- `DepositRequest` (`src/models/transaction.rs`). -/
structure DepositRequest where
  account_id : Nat
  amount : Decimal
  description : Option String
deriving Repr, DecidableEq

/-- `WithdrawalRequest` (`src/models/transaction.rs`). -/
structure WithdrawalRequest where
  account_id : Nat
  amount : Decimal
  description : Option String
deriving Repr, DecidableEq

/-- `CreateTransactionRequest` (`src/models/transaction.rs`). -/
structure CreateTransactionRequest where
  transaction_type : String
  sender_account_id : Option Nat
  receiver_account_id : Option Nat
  amount : Decimal
  currency : String
  description : Option String
deriving Repr, DecidableEq

/-- `SELECT ... FROM accounts WHERE id = $1` — point lookup on the primary
key (first matching row). -/
def findAccount (st : Store) (id : Nat) : Option Account :=
  st.accounts.find? (fun a => a.id = id)

/-- The balance the Rust code computes from `balance::TEXT`:
`.parse().unwrap_or(Decimal::ZERO)` — the stored value when the text parses,
`0` otherwise (`src/services/*.rs`, `src/models/decimal.rs`). -/
def parsedBalance (a : Account) : Decimal :=
  if a.balParses then a.balance else 0

/-- The true stored NUMERIC balance of an account, if the row exists. -/
def balanceOf (st : Store) (id : Nat) : Option Decimal :=
  (findAccount st id).map Account.balance

/-- `validate_positive_amount` (`src/models/transaction.rs` lines 208-215):
errs exactly when `amount <= Decimal::ZERO`.  `true` means the amount passed
validation. -/
def validate_positive_amount (amount : Decimal) : Bool :=
  if amount ≤ 0 then false else true

/-- Modelled from the spec: the `accounts.balance` non-negative CHECK
constraint (`balance_non_negative`).  The migration SQL declaring it is not
under `src/`; the spec (§6) states "accounts.balance has a non-negative
check constraint", and the comment above `update_account_balance`
(`transaction_service.rs` line 622) relies on it by name.  An UPDATE whose
resulting balance is negative fails with a database error, which rolls back
the enclosing store transaction. -/
def checkViolated (newBalance : Decimal) : Bool :=
  if newBalance < 0 then true else false

/-- `UPDATE accounts SET balance = balance + $amt WHERE id = $i`: the
SQL-level increment applied to every matching row (the primary key makes the
match unique in any real store). -/
def applyDelta (l : List Account) (i : Nat) (amt : Decimal) : List Account :=
  l.map fun b => if b.id = i then { b with balance := b.balance + amt } else b

/-- `UPDATE accounts SET balance = $v WHERE id = $i`: the overwrite performed
by `account_service::update_balance`; the written text is
`Decimal::to_string()`, so it re-parses. -/
def overwriteBalance (l : List Account) (i : Nat) (v : Decimal) : List Account :=
  l.map fun b => if b.id = i then { b with balance := v, balParses := true } else b

/-- `UPDATE transactions SET status = $s WHERE id = $i`
(`transaction_service::update_transaction_status`). -/
def setStatus (l : List Txn) (i : Nat) (s : String) : List Txn :=
  l.map fun t => if t.id = i then { t with status := s } else t

/-- `transaction_service::update_account_balance` (lines 604-626): a raw
`UPDATE accounts SET balance = balance + $amt` inside the caller's store
transaction.  There is no application-level check here; the database CHECK
constraint (`checkViolated`) is the only guard, exactly as the code's
comment says.  An UPDATE matching no row succeeds affecting zero rows. -/
def update_account_balance (st : Store) (account_id : Nat) (amount : Decimal) :
    Except AppError Store × List Event :=
  match findAccount st account_id with
  | none => (.ok st, [.sqlUpdateBalance account_id])
  | some a =>
      if checkViolated (a.balance + amount) then
        (.error (.database "balance_non_negative"), [.sqlUpdateBalance account_id])
      else
        (.ok { st with accounts := applyDelta st.accounts account_id amount },
         [.sqlUpdateBalance account_id])

/-- `account_service::update_balance` (lines 170-242), the spec's
`adjustBalance`: begins a store transaction, locks the row
(`SELECT ... FOR UPDATE`) and reads `balance::TEXT` from that locked row,
parses it with zero fallback, computes `new = current + amount`, fails with
`badRequest "Insufficient funds"` when `new < 0`, otherwise overwrites the
balance with `new` and returns the updated account. -/
def update_balance (st : Store) (id : Nat) (amount : Decimal) :
    Except AppError (Store × Account) × List Event :=
  match findAccount st id with
  | none => (.error (.notFound "Account not found"), [.beginTx, .lockRow id])
  | some a =>
      let current_balance := parsedBalance a
      let new_balance := current_balance + amount
      if new_balance < 0 then
        (.error (.badRequest "Insufficient funds"),
         [.beginTx, .lockRow id, .readBalanceText id])
      else
        (.ok ({ st with accounts := overwriteBalance st.accounts id new_balance },
              { a with balance := new_balance, balParses := true }),
         [.beginTx, .lockRow id, .readBalanceText id, .sqlUpdateBalance id, .commit])

/-- `account_service::create_account` (lines 92-145): fails with `notFound`
when the owner user does not exist, otherwise inserts an account with
balance `'0'` (which parses) and returns it.  The service itself performs no
currency validation. -/
def create_account (st : Store) (user_id : Nat) (currency : String) (newId : Nat) :
    Except AppError (Store × Account) :=
  if user_id ∈ st.users then
    let a : Account :=
      { id := newId, user_id := user_id, balance := 0, balParses := true,
        currency := currency }
    .ok ({ st with accounts := st.accounts ++ [a] }, a)
  else
    .error (.notFound "User not found")

/-- `transaction_service::process_deposit` (lines 346-401): begin, lock and
load the account (notFound if absent), insert a PENDING DEPOSIT record with
no sender, apply `+amount` via `update_account_balance`, set the record
COMPLETED, commit. -/
def process_deposit (st : Store) (request : DepositRequest) (txnId : Nat) :
    Except AppError (Store × Txn) × List Event :=
  match findAccount st request.account_id with
  | none =>
      (.error (.notFound "Account not found"),
       [.beginTx, .lockRow request.account_id])
  | some account =>
      let txn : Txn :=
        { id := txnId, sender_account_id := none,
          receiver_account_id := some request.account_id,
          amount := request.amount, currency := account.currency,
          transaction_type := "DEPOSIT", status := "PENDING",
          description := request.description }
      let st1 := { st with txns := st.txns ++ [txn] }
      let evs0 := [Event.beginTx, Event.lockRow request.account_id,
                   Event.insertTxn txnId]
      match update_account_balance st1 request.account_id request.amount with
      | (.error e, evs1) => (.error e, evs0 ++ evs1)
      | (.ok st2, evs1) =>
          (.ok ({ st2 with txns := setStatus st2.txns txnId "COMPLETED" },
                { txn with status := "COMPLETED" }),
           evs0 ++ evs1 ++ [Event.setTxnStatus txnId, Event.commit])

/-- `transaction_service::process_withdrawal` (lines 423-497): begin, lock
and load the account (notFound if absent), re-read `balance::TEXT` from the
locked row and parse it with zero fallback, fail with
`badRequest "Insufficient funds"` when that balance is below the requested
amount — before any record is inserted or balance touched — otherwise insert
a PENDING WITHDRAWAL record with no receiver, apply `-amount` via
`update_account_balance`, set the record COMPLETED, commit. -/
def process_withdrawal (st : Store) (request : WithdrawalRequest) (txnId : Nat) :
    Except AppError (Store × Txn) × List Event :=
  match findAccount st request.account_id with
  | none =>
      (.error (.notFound "Account not found"),
       [.beginTx, .lockRow request.account_id])
  | some account =>
      let account_balance := parsedBalance account
      if account_balance < request.amount then
        (.error (.badRequest "Insufficient funds"),
         [.beginTx, .lockRow request.account_id,
          .readBalanceText request.account_id])
      else
        let txn : Txn :=
          { id := txnId, sender_account_id := some request.account_id,
            receiver_account_id := none,
            amount := request.amount, currency := account.currency,
            transaction_type := "WITHDRAWAL", status := "PENDING",
            description := request.description }
        let st1 := { st with txns := st.txns ++ [txn] }
        let evs0 := [Event.beginTx, Event.lockRow request.account_id,
                     Event.readBalanceText request.account_id,
                     Event.insertTxn txnId]
        match update_account_balance st1 request.account_id (-request.amount) with
        | (.error e, evs1) => (.error e, evs0 ++ evs1)
        | (.ok st2, evs1) =>
            (.ok ({ st2 with txns := setStatus st2.txns txnId "COMPLETED" },
                  { txn with status := "COMPLETED" }),
             evs0 ++ evs1 ++ [Event.setTxnStatus txnId, Event.commit])

/-- `transaction_service::process_transfer` (lines 204-325): begin; reject a
self-transfer before any row is locked; lock and load the sender, then the
receiver (in that order — the order the source issues the two
`FOR UPDATE` selects); reject on currency mismatch; re-read the sender's
`balance::TEXT` from the locked row, parse with zero fallback, and reject
with `badRequest "Insufficient funds"` when it is below the amount; insert a
PENDING TRANSFER record; apply `-amount` to the sender and `+amount` to the
receiver via `update_account_balance`; set the record COMPLETED; commit. -/
def process_transfer (st : Store) (request : TransferRequest) (txnId : Nat) :
    Except AppError (Store × Txn) × List Event :=
  if request.sender_account_id = request.receiver_account_id then
    (.error (.badRequest "Cannot transfer to the same account"), [.beginTx])
  else
    match findAccount st request.sender_account_id with
    | none =>
        (.error (.notFound "Sender account not found"),
         [.beginTx, .lockRow request.sender_account_id])
    | some sender_account =>
        match findAccount st request.receiver_account_id with
        | none =>
            (.error (.notFound "Receiver account not found"),
             [.beginTx, .lockRow request.sender_account_id,
              .lockRow request.receiver_account_id])
        | some receiver_account =>
            if sender_account.currency ≠ receiver_account.currency then
              (.error (.badRequest "Currency mismatch between accounts"),
               [.beginTx, .lockRow request.sender_account_id,
                .lockRow request.receiver_account_id])
            else
              let sender_balance := parsedBalance sender_account
              if sender_balance < request.amount then
                (.error (.badRequest "Insufficient funds"),
                 [.beginTx, .lockRow request.sender_account_id,
                  .lockRow request.receiver_account_id,
                  .readBalanceText request.sender_account_id])
              else
                let txn : Txn :=
                  { id := txnId,
                    sender_account_id := some request.sender_account_id,
                    receiver_account_id := some request.receiver_account_id,
                    amount := request.amount,
                    currency := sender_account.currency,
                    transaction_type := "TRANSFER", status := "PENDING",
                    description := request.description }
                let st1 := { st with txns := st.txns ++ [txn] }
                let evs0 := [Event.beginTx,
                             Event.lockRow request.sender_account_id,
                             Event.lockRow request.receiver_account_id,
                             Event.readBalanceText request.sender_account_id,
                             Event.insertTxn txnId]
                match update_account_balance st1 request.sender_account_id
                    (-request.amount) with
                | (.error e, evs1) => (.error e, evs0 ++ evs1)
                | (.ok st2, evs1) =>
                    match update_account_balance st2 request.receiver_account_id
                        request.amount with
                    | (.error e, evs2) => (.error e, evs0 ++ evs1 ++ evs2)
                    | (.ok st3, evs2) =>
                        (.ok ({ st3 with
                                  txns := setStatus st3.txns txnId "COMPLETED" },
                              { txn with status := "COMPLETED" }),
                         evs0 ++ evs1 ++ evs2 ++
                           [Event.setTxnStatus txnId, Event.commit])

/-- `transaction_service::create_transaction` (lines 113-182): the routing
facade.  Maps the type string to a handler, requiring both party ids for
TRANSFER, the receiver for DEPOSIT and the sender for WITHDRAWAL; any other
type string is a `badRequest`. -/
def create_transaction (st : Store) (request : CreateTransactionRequest) (txnId : Nat) :
    Except AppError (Store × Txn) × List Event :=
  match request.transaction_type with
  | "TRANSFER" =>
      match request.sender_account_id, request.receiver_account_id with
      | some s, some r =>
          process_transfer st
            { sender_account_id := s, receiver_account_id := r,
              amount := request.amount, description := request.description }
            txnId
      | _, _ =>
          (.error (.badRequest
              "Sender and receiver account IDs are required for transfers"), [])
  | "DEPOSIT" =>
      match request.receiver_account_id with
      | some r =>
          process_deposit st
            { account_id := r, amount := request.amount,
              description := request.description } txnId
      | none =>
          (.error (.badRequest "Receiver account ID is required for deposits"), [])
  | "WITHDRAWAL" =>
      match request.sender_account_id with
      | some s =>
          process_withdrawal st
            { account_id := s, amount := request.amount,
              description := request.description } txnId
      | none =>
          (.error (.badRequest "Sender account ID is required for withdrawals"), [])
  | _ => (.error (.badRequest "Invalid transaction type"), [])

/-- The ownership check the API handlers run on an (optional) account id
before invoking a service (`src/api/transactions.rs`): a plain pool read —
no store transaction — that yields `notFound` for a missing account and
`forbidden` for an account of another user. -/
def ownershipError (st : Store) (authUserId : Nat) (oid : Option Nat)
    (msg : String) : Option AppError :=
  match oid with
  | none => none
  | some i =>
      match findAccount st i with
      | none => some (.notFound "Account not found")
      | some a => if a.user_id ≠ authUserId then some (.forbidden msg) else none

/-- The `/transactions/transfer` handler (`src/api/transactions.rs` lines
119-150): `request.validate()` (the `validate_positive_amount` check) runs
first, then sender ownership, and only then `process_transfer` — so an
invalid amount is rejected with an empty event trace: no store transaction
is ever begun. -/
def transfer_handler (st : Store) (authUserId : Nat) (request : TransferRequest)
    (txnId : Nat) : Except AppError (Store × Txn) × List Event :=
  if validate_positive_amount request.amount = false then
    (.error (.validation "Invalid transfer data"), [])
  else
    match ownershipError st authUserId (some request.sender_account_id)
        "You do not have permission to use this sender account" with
    | some e => (.error e, [])
    | none => process_transfer st request txnId

/-- The `/transactions/deposit` handler (`src/api/transactions.rs` lines
152-183): validation, then ownership, then `process_deposit`. -/
def deposit_handler (st : Store) (authUserId : Nat) (request : DepositRequest)
    (txnId : Nat) : Except AppError (Store × Txn) × List Event :=
  if validate_positive_amount request.amount = false then
    (.error (.validation "Invalid deposit data"), [])
  else
    match ownershipError st authUserId (some request.account_id)
        "You do not have permission to use this account" with
    | some e => (.error e, [])
    | none => process_deposit st request txnId

/-- The `/transactions/withdrawal` handler (`src/api/transactions.rs` lines
185-216): validation, then ownership, then `process_withdrawal`. -/
def withdrawal_handler (st : Store) (authUserId : Nat) (request : WithdrawalRequest)
    (txnId : Nat) : Except AppError (Store × Txn) × List Event :=
  if validate_positive_amount request.amount = false then
    (.error (.validation "Invalid withdrawal data"), [])
  else
    match ownershipError st authUserId (some request.account_id)
        "You do not have permission to use this account" with
    | some e => (.error e, [])
    | none => process_withdrawal st request txnId

/-- The generic `/transactions` handler (`src/api/transactions.rs` lines
77-117): `request.validate()` checks the amount (`validate_positive_amount`)
and that the currency string has exactly 3 characters; then ownership of
whichever party ids are present; then the `create_transaction` facade. -/
def create_transaction_handler (st : Store) (authUserId : Nat)
    (request : CreateTransactionRequest) (txnId : Nat) :
    Except AppError (Store × Txn) × List Event :=
  if validate_positive_amount request.amount = false ∨ request.currency.length ≠ 3 then
    (.error (.validation "Invalid transaction data"), [])
  else
    match ownershipError st authUserId request.sender_account_id
        "You do not have permission to use this sender account" with
    | some e => (.error e, [])
    | none =>
        match ownershipError st authUserId request.receiver_account_id
            "You do not have permission to use this receiver account" with
        | some e => (.error e, [])
        | none => create_transaction st request txnId

/-- The `POST /accounts` handler (`src/api/accounts.rs` lines 68-88):
`CreateAccountRequest` validation rejects a currency whose length is not 3,
then `create_account` runs for the authenticated user. -/
def create_account_handler (st : Store) (authUserId : Nat) (currency : String)
    (newId : Nat) : Except AppError (Store × Account) :=
  if currency.length ≠ 3 then
    .error (.validation "Invalid account data")
  else
    create_account st authUserId currency newId

/-- The sequence of account ids locked (`FOR UPDATE`) by an operation, in
order of acquisition. -/
def lockSeq (evs : List Event) : List Nat :=
  evs.filterMap fun e =>
    match e with
    | .lockRow i => some i
    | _ => none

/-- The committed store after an operation: the new store on success, the
original store on any error (the driver rolls the store transaction back). -/
def outStore {α : Type} (r : Except AppError (Store × α)) (st : Store) : Store :=
  match r with
  | .ok p => p.1
  | .error _ => st

/-- The standing invariant of the spec: every account balance is
non-negative. -/
@[reducible] def nonNegBalances (st : Store) : Prop :=
  ∀ a ∈ st.accounts, 0 ≤ a.balance

/-- The primary-key constraint on `accounts.id`: ids are pairwise distinct. -/
@[reducible] def idsNodup (st : Store) : Prop :=
  (st.accounts.map Account.id).Nodup

/-- Fixture: a USD account with a parsable stored balance of 100. -/
def acctA : Account :=
  { id := 1, user_id := 10, balance := 100, balParses := true, currency := "USD" }

/-- Fixture: a USD account with a parsable stored balance of 50. -/
def acctB : Account :=
  { id := 2, user_id := 20, balance := 50, balParses := true, currency := "USD" }

/-- Fixture: a USD account whose stored balance text does not parse as a
`rust_decimal::Decimal` (true NUMERIC value 100). -/
def acctC : Account :=
  { id := 3, user_id := 30, balance := 100, balParses := false, currency := "USD" }

/-- Fixture: a EUR account with a parsable stored balance of 75. -/
def acctD : Account :=
  { id := 4, user_id := 40, balance := 75, balParses := true, currency := "EUR" }

/-- Fixture store for concrete witnesses: four owners and their accounts. -/
def st0 : Store :=
  { users := [10, 20, 30, 40], accounts := [acctA, acctB, acctC, acctD], txns := [] }

/-- Fixture: the audit record committed by transferring 10 from account 1 to
account 2 of `st0` under generated transaction id 41. -/
def txn41 : Txn :=
  { id := 41, sender_account_id := some 1, receiver_account_id := some 2,
    amount := 10, currency := "USD", transaction_type := "TRANSFER",
    status := "COMPLETED", description := none }

/-- Fixture: the committed store after that transfer. -/
def st0_after_transfer : Store :=
  { users := [10, 20, 30, 40],
    accounts :=
      [{ id := 1, user_id := 10, balance := 90, balParses := true, currency := "USD" },
       { id := 2, user_id := 20, balance := 60, balParses := true, currency := "USD" },
       acctC, acctD],
    txns := [txn41] }

/-- Fixture: the event trace of that transfer. -/
def transferTrace41 : List Event :=
  [.beginTx, .lockRow 1, .lockRow 2, .readBalanceText 1, .insertTxn 41,
   .sqlUpdateBalance 1, .sqlUpdateBalance 2, .setTxnStatus 41, .commit]

end TxnManager

namespace TxnManager

/-- A map whose function preserves `id` commutes with the point lookup. -/
lemma find?_map_of_id_eq (f : Account → Account) (hf : ∀ a, (f a).id = a.id)
    (l : List Account) (i : Nat) :
    (l.map f).find? (fun a => a.id = i) = (l.find? (fun a => a.id = i)).map f := by
  induction l with
  | nil => rfl
  | cons a l ih =>
      by_cases h : a.id = i
      · simp [List.find?_cons, hf, h]
      · simp [List.find?_cons, hf, h, ih]

/-- The SQL increment touches only the balance field, never the id. -/
lemma applyDelta_id_eq (i : Nat) (amt : Decimal) (a : Account) :
    ((fun b => if b.id = i then { b with balance := b.balance + amt } else b) a).id
      = a.id := by
  by_cases h : a.id = i <;> simp [h]

/-- The balance overwrite touches only balance and parse flag, never the id. -/
lemma overwriteBalance_id_eq (i : Nat) (v : Decimal) (a : Account) :
    ((fun b => if b.id = i then { b with balance := v, balParses := true } else b) a).id
      = a.id := by
  by_cases h : a.id = i <;> simp [h]

/-- Point lookup after the SQL increment. -/
lemma find?_applyDelta (l : List Account) (i j : Nat) (amt : Decimal) :
    (applyDelta l i amt).find? (fun a => a.id = j) =
      (l.find? (fun a => a.id = j)).map
        (fun b => if b.id = i then { b with balance := b.balance + amt } else b) :=
  find?_map_of_id_eq _ (applyDelta_id_eq i amt) l j

/-- Point lookup after the balance overwrite. -/
lemma find?_overwriteBalance (l : List Account) (i j : Nat) (v : Decimal) :
    (overwriteBalance l i v).find? (fun a => a.id = j) =
      (l.find? (fun a => a.id = j)).map
        (fun b => if b.id = i then { b with balance := v, balParses := true } else b) :=
  find?_map_of_id_eq _ (overwriteBalance_id_eq i v) l j

/-- The SQL increment leaves the id column of every row unchanged. -/
lemma applyDelta_map_id (l : List Account) (i : Nat) (amt : Decimal) :
    (applyDelta l i amt).map Account.id = l.map Account.id := by
  simp only [applyDelta, List.map_map]
  apply List.map_congr_left
  intro a _
  simpa using applyDelta_id_eq i amt a

/-- The CHECK constraint fires exactly on a negative result. -/
lemma checkViolated_iff (v : Decimal) : checkViolated v = true ↔ v < 0 := by
  unfold checkViolated
  split <;> simp_all

/-- A found account is a row of the table. -/
lemma findAccount_mem {st : Store} {i : Nat} {a : Account}
    (h : findAccount st i = some a) : a ∈ st.accounts :=
  List.mem_of_find?_eq_some h

/-- A found account has the id it was looked up by. -/
lemma findAccount_id {st : Store} {i : Nat} {a : Account}
    (h : findAccount st i = some a) : a.id = i := by
  have := List.find?_some h
  simpa using this

/-- When the target row exists, a successful `update_account_balance` is
exactly the SQL increment on the accounts table, and the CHECK constraint
guarantees the incremented balance is non-negative. -/
lemma update_account_balance_ok_spec {st stA : Store} {i : Nat} {amt : Decimal}
    {evs : List Event} {a : Account}
    (h : update_account_balance st i amt = (.ok stA, evs))
    (hf : findAccount st i = some a) :
    stA = { st with accounts := applyDelta st.accounts i amt } ∧
      0 ≤ a.balance + amt := by
  unfold update_account_balance at h
  split at h
  next heq =>
    rw [hf] at heq
    exact Option.noConfusion heq
  next b heq =>
    rw [hf] at heq
    injection heq with hba
    subst hba
    split at h
    · simp at h
    next hguard =>
      simp only [Prod.mk.injEq, Except.ok.injEq] at h
      refine ⟨h.1.symm, ?_⟩
      rw [checkViolated_iff] at hguard
      exact not_lt.mp hguard

/-- A successful `update_account_balance` preserves the non-negative-balance
invariant (the CHECK constraint guards the only row it changes). -/
lemma update_account_balance_nonneg {st stA : Store} {i : Nat} {amt : Decimal}
    (h : (update_account_balance st i amt).1 = .ok stA)
    (hnd : idsNodup st) (hinv : nonNegBalances st) :
    nonNegBalances stA := by
  unfold update_account_balance at h
  split at h
  next heq =>
    simp only [Except.ok.injEq] at h
    subst h
    exact hinv
  next a heq =>
    split at h
    · simp at h
    next hguard =>
      simp only [Except.ok.injEq] at h
      subst h
      have hmem : a ∈ st.accounts := findAccount_mem heq
      have hid : a.id = i := findAccount_id heq
      rw [checkViolated_iff] at hguard
      intro x hx
      simp only [applyDelta, List.mem_map] at hx
      obtain ⟨b, hb, rfl⟩ := hx
      by_cases hb2 : b.id = i
      · have hba : b = a :=
          List.inj_on_of_nodup_map hnd hb hmem (by rw [hb2, hid])
        subst hba
        rw [if_pos hb2]
        exact not_lt.mp hguard
      · rw [if_neg hb2]
        exact hinv b hb

/-- A successful `update_account_balance` does not change the id column. -/
lemma update_account_balance_map_id {st stA : Store} {i : Nat} {amt : Decimal}
    (h : (update_account_balance st i amt).1 = .ok stA) :
    stA.accounts.map Account.id = st.accounts.map Account.id := by
  unfold update_account_balance at h
  split at h
  next heq =>
    simp only [Except.ok.injEq] at h
    subst h
    rfl
  next a heq =>
    split at h
    · simp at h
    · simp only [Except.ok.injEq] at h
      subst h
      exact applyDelta_map_id st.accounts i amt

/-- `update_account_balance` never touches the transactions table. -/
lemma update_account_balance_txns {st stA : Store} {i : Nat} {amt : Decimal}
    (h : (update_account_balance st i amt).1 = .ok stA) :
    stA.txns = st.txns := by
  unfold update_account_balance at h
  split at h
  next heq =>
    simp only [Except.ok.injEq] at h
    subst h
    rfl
  next a heq =>
    split at h
    · simp at h
    · simp only [Except.ok.injEq] at h
      subst h
      rfl

end TxnManager

namespace TxnManager

/-- The trace of `update_account_balance` is the single UPDATE statement. -/
lemma update_account_balance_snd (st : Store) (i : Nat) (amt : Decimal) :
    (update_account_balance st i amt).2 = [.sqlUpdateBalance i] := by
  unfold update_account_balance
  split
  · rfl
  · split <;> rfl

/-- A successful deposit preserves the non-negative-balance invariant. -/
lemma process_deposit_nonneg {st st2 : Store} {req : DepositRequest} {tid : Nat}
    {txn : Txn} {evs : List Event} (hnd : idsNodup st) (hinv : nonNegBalances st)
    (h : process_deposit st req tid = (.ok (st2, txn), evs)) :
    nonNegBalances st2 := by
  simp only [process_deposit] at h
  split at h
  next heq => simp at h
  next account heq =>
    split at h
    next e evs1 heq2 => simp at h
    next stA evs1 heq2 =>
      simp only [Prod.mk.injEq, Except.ok.injEq] at h
      obtain ⟨⟨h2, -⟩, -⟩ := h
      have hA : nonNegBalances stA :=
        update_account_balance_nonneg (congrArg Prod.fst heq2) hnd hinv
      rw [← h2]
      intro x hx
      exact hA x hx

/-- A successful withdrawal preserves the non-negative-balance invariant. -/
lemma process_withdrawal_nonneg {st st2 : Store} {req : WithdrawalRequest} {tid : Nat}
    {txn : Txn} {evs : List Event} (hnd : idsNodup st) (hinv : nonNegBalances st)
    (h : process_withdrawal st req tid = (.ok (st2, txn), evs)) :
    nonNegBalances st2 := by
  simp only [process_withdrawal] at h
  split at h
  next heq => simp at h
  next account heq =>
    split at h
    · simp at h
    next hfunds =>
      split at h
      next e evs1 heq2 => simp at h
      next stA evs1 heq2 =>
        simp only [Prod.mk.injEq, Except.ok.injEq] at h
        obtain ⟨⟨h2, -⟩, -⟩ := h
        have hA : nonNegBalances stA :=
          update_account_balance_nonneg (congrArg Prod.fst heq2) hnd hinv
        rw [← h2]
        intro x hx
        exact hA x hx

/-- A successful transfer preserves the non-negative-balance invariant (both
balance updates are guarded by the CHECK constraint). -/
lemma process_transfer_nonneg {st st2 : Store} {req : TransferRequest} {tid : Nat}
    {txn : Txn} {evs : List Event} (hnd : idsNodup st) (hinv : nonNegBalances st)
    (h : process_transfer st req tid = (.ok (st2, txn), evs)) :
    nonNegBalances st2 := by
  simp only [process_transfer] at h
  split at h
  · simp at h
  next hneq =>
    split at h
    next heq => simp at h
    next sa heq =>
      split at h
      next heq2 => simp at h
      next ra heq2 =>
        split at h
        · simp at h
        next hcur =>
          split at h
          · simp at h
          next hfunds =>
            split at h
            next e evs1 heq3 => simp at h
            next stA evs1 heq3 =>
              split at h
              next e evs2 heq4 => simp at h
              next stB evs2 heq4 =>
                simp only [Prod.mk.injEq, Except.ok.injEq] at h
                obtain ⟨⟨h2, -⟩, -⟩ := h
                have hA : nonNegBalances stA :=
                  update_account_balance_nonneg (congrArg Prod.fst heq3) hnd hinv
                have hndA : idsNodup stA := by
                  have := update_account_balance_map_id (congrArg Prod.fst heq3)
                  unfold idsNodup
                  rw [this]
                  exact hnd
                have hB : nonNegBalances stB :=
                  update_account_balance_nonneg (congrArg Prod.fst heq4) hndA hA
                rw [← h2]
                intro x hx
                exact hB x hx

/-- A successful `update_balance` preserves the non-negative-balance
invariant: the written value is the explicitly checked `new` balance. -/
lemma update_balance_nonneg {st st2 : Store} {i : Nat} {amt : Decimal}
    {acc : Account} {evs : List Event} (hinv : nonNegBalances st)
    (h : update_balance st i amt = (.ok (st2, acc), evs)) :
    nonNegBalances st2 := by
  simp only [update_balance] at h
  split at h
  next heq => simp at h
  next a heq =>
    split at h
    · simp at h
    next hguard =>
      simp only [Prod.mk.injEq, Except.ok.injEq] at h
      obtain ⟨⟨h2, -⟩, -⟩ := h
      rw [← h2]
      intro x hx
      simp only [overwriteBalance, List.mem_map] at hx
      obtain ⟨b, hb, rfl⟩ := hx
      by_cases hb2 : b.id = i
      · rw [if_pos hb2]
        exact not_lt.mp hguard
      · rw [if_neg hb2]
        exact hinv b hb

/-- A successful transfer passed every guard, and its committed accounts
table is exactly the two SQL increments applied to the original table. -/
lemma process_transfer_ok_state {st st2 : Store} {req : TransferRequest} {tid : Nat}
    {txn : Txn} {evs : List Event}
    (h : process_transfer st req tid = (.ok (st2, txn), evs)) :
    req.sender_account_id ≠ req.receiver_account_id ∧
    ∃ sa ra,
      findAccount st req.sender_account_id = some sa ∧
      findAccount st req.receiver_account_id = some ra ∧
      st2.accounts =
        applyDelta (applyDelta st.accounts req.sender_account_id (-req.amount))
          req.receiver_account_id req.amount := by
  simp only [process_transfer] at h
  split at h
  · simp at h
  next hneq =>
    refine ⟨hneq, ?_⟩
    split at h
    next heq => simp at h
    next sa heq =>
      split at h
      next heq2 => simp at h
      next ra heq2 =>
        refine ⟨sa, ra, heq, heq2, ?_⟩
        split at h
        · simp at h
        next hcur =>
          split at h
          · simp at h
          next hfunds =>
            split at h
            next e evs1 heq3 => simp at h
            next stA evs1 heq3 =>
              split at h
              next e evs2 heq4 => simp at h
              next stB evs2 heq4 =>
                simp only [Prod.mk.injEq, Except.ok.injEq] at h
                obtain ⟨⟨h2, -⟩, -⟩ := h
                obtain ⟨hAeq, -⟩ := update_account_balance_ok_spec heq3 heq
                have hfr2 : findAccount stA req.receiver_account_id = some ra := by
                  rw [hAeq]
                  unfold findAccount
                  show (applyDelta st.accounts req.sender_account_id (-req.amount)).find?
                      (fun a => a.id = req.receiver_account_id) = some ra
                  rw [find?_applyDelta]
                  have hraw : st.accounts.find? (fun a => a.id = req.receiver_account_id)
                      = some ra := heq2
                  rw [hraw]
                  simp only [Option.map_some']
                  rw [if_neg]
                  rw [findAccount_id heq2]
                  exact fun hc => hneq hc.symm
                obtain ⟨hBeq, -⟩ := update_account_balance_ok_spec heq4 hfr2
                rw [← h2, hBeq, hAeq]

end TxnManager

namespace TxnManager

/-- Claim C1: starting from any state in which account ids are pairwise
distinct (the primary-key constraint on `accounts.id`) and every account
balance is non-negative, every engine operation — deposit, withdrawal,
transfer, and adjustBalance (`update_balance`) — leaves every balance
non-negative, whether it succeeds or fails: a failure commits nothing (the
store transaction rolls back), and a success is guarded by the application
checks and by the `balance_non_negative` CHECK constraint. -/
theorem c1_operations_preserve_nonneg_balances (st : Store)
    (hnd : idsNodup st) (hinv : nonNegBalances st) :
    (∀ (req : DepositRequest) (tid : Nat),
        nonNegBalances (outStore (process_deposit st req tid).1 st)) ∧
    (∀ (req : WithdrawalRequest) (tid : Nat),
        nonNegBalances (outStore (process_withdrawal st req tid).1 st)) ∧
    (∀ (req : TransferRequest) (tid : Nat),
        nonNegBalances (outStore (process_transfer st req tid).1 st)) ∧
    (∀ (i : Nat) (amt : Decimal),
        nonNegBalances (outStore (update_balance st i amt).1 st)) := by
  refine ⟨?_, ?_, ?_, ?_⟩
  · intro req tid
    rcases hr : process_deposit st req tid with ⟨r, evs⟩
    cases r with
    | error e => simp only [hr, outStore]; exact hinv
    | ok p =>
        rcases p with ⟨st2, txn⟩
        simp only [hr, outStore]
        exact process_deposit_nonneg hnd hinv hr
  · intro req tid
    rcases hr : process_withdrawal st req tid with ⟨r, evs⟩
    cases r with
    | error e => simp only [hr, outStore]; exact hinv
    | ok p =>
        rcases p with ⟨st2, txn⟩
        simp only [hr, outStore]
        exact process_withdrawal_nonneg hnd hinv hr
  · intro req tid
    rcases hr : process_transfer st req tid with ⟨r, evs⟩
    cases r with
    | error e => simp only [hr, outStore]; exact hinv
    | ok p =>
        rcases p with ⟨st2, txn⟩
        simp only [hr, outStore]
        exact process_transfer_nonneg hnd hinv hr
  · intro i amt
    rcases hr : update_balance st i amt with ⟨r, evs⟩
    cases r with
    | error e => simp only [hr, outStore]; exact hinv
    | ok p =>
        rcases p with ⟨st2, acc⟩
        simp only [hr, outStore]
        exact update_balance_nonneg hinv hr

/-- Witness for C1: the invariant theorem applied to the fixture store, for a
concrete deposit and a concrete (failing) adjustBalance. -/
theorem c1_witness :
    nonNegBalances (outStore
      (process_deposit st0 { account_id := 1, amount := 30, description := none } 99).1 st0) ∧
    nonNegBalances (outStore (update_balance st0 3 (-1)).1 st0) :=
  ⟨(c1_operations_preserve_nonneg_balances st0 (by decide) (by decide)).1 _ 99,
   (c1_operations_preserve_nonneg_balances st0 (by decide) (by decide)).2.2.2 3 (-1)⟩

/-- Claim C2: every successful transfer of amount X from A to B yields
`balance(A)_after = balance(A)_before - X` and
`balance(B)_after = balance(B)_before + X`, so the sum of the two balances is
conserved. -/
theorem c2_transfer_conservation {st st2 : Store} {req : TransferRequest}
    {tid : Nat} {txn : Txn} {evs : List Event}
    (h : process_transfer st req tid = (.ok (st2, txn), evs)) :
    ∃ bs br,
      balanceOf st req.sender_account_id = some bs ∧
      balanceOf st req.receiver_account_id = some br ∧
      balanceOf st2 req.sender_account_id = some (bs - req.amount) ∧
      balanceOf st2 req.receiver_account_id = some (br + req.amount) ∧
      bs - req.amount + (br + req.amount) = bs + br := by
  obtain ⟨hneq, sa, ra, hfs, hfr, hacc⟩ := process_transfer_ok_state h
  have hsid : sa.id = req.sender_account_id := findAccount_id hfs
  have hrid : ra.id = req.receiver_account_id := findAccount_id hfr
  refine ⟨sa.balance, ra.balance, ?_, ?_, ?_, ?_, by ring⟩
  · simp [balanceOf, hfs]
  · simp [balanceOf, hfr]
  · unfold balanceOf findAccount
    rw [hacc, find?_applyDelta, find?_applyDelta]
    have hraws : st.accounts.find? (fun a => a.id = req.sender_account_id) = some sa := hfs
    rw [hraws]
    simp only [Option.map_some']
    rw [if_pos hsid]
    rw [if_neg ?hno]
    case hno =>
      show ¬ (Account.mk sa.id sa.user_id (sa.balance + -req.amount) sa.balParses sa.currency).id
          = req.receiver_account_id
      simpa [hsid] using hneq
    simp [sub_eq_add_neg]
  · unfold balanceOf findAccount
    rw [hacc, find?_applyDelta, find?_applyDelta]
    have hrawr : st.accounts.find? (fun a => a.id = req.receiver_account_id) = some ra := hfr
    rw [hrawr]
    simp only [Option.map_some']
    rw [if_neg (show ¬ ra.id = req.sender_account_id from by
      rw [hrid]; exact fun hc => hneq hc.symm)]
    rw [if_pos hrid]

/-- Witness for C2: the concrete transfer of 10 from account 1 (balance 100)
to account 2 (balance 50) of the fixture store. -/
theorem c2_witness :
    ∃ bs br,
      balanceOf st0 1 = some bs ∧
      balanceOf st0 2 = some br ∧
      balanceOf st0_after_transfer 1 = some (bs - 10) ∧
      balanceOf st0_after_transfer 2 = some (br + 10) ∧
      bs - 10 + (br + 10) = bs + br :=
  @c2_transfer_conservation st0 st0_after_transfer
    { sender_account_id := 1, receiver_account_id := 2, amount := 10, description := none }
    41 txn41 transferTrace41 (by decide)

/-- Claim C3: `process_withdrawal` fails with InsufficientFunds
(`badRequest "Insufficient funds"`) whenever the current balance is below the
requested amount, and the failure happens before any mutation: the trace is
exactly begin, lock, read — no record insert, no balance UPDATE — and the
error rolls the store transaction back, so the balance and the ledger are
unchanged. -/
theorem c3_withdrawal_insufficient_funds {st : Store} {req : WithdrawalRequest}
    {tid : Nat} {a : Account}
    (hf : findAccount st req.account_id = some a)
    (hnn : 0 ≤ a.balance) (hlt : a.balance < req.amount) :
    process_withdrawal st req tid =
      (.error (.badRequest "Insufficient funds"),
       [.beginTx, .lockRow req.account_id, .readBalanceText req.account_id]) := by
  have hp : parsedBalance a < req.amount := by
    unfold parsedBalance
    split
    · exact hlt
    · exact lt_of_le_of_lt hnn hlt
  simp only [process_withdrawal, hf]
  rw [if_pos hp]

/-- Witness for C3: withdrawing 1000 from account 2, whose balance is 50. -/
theorem c3_witness :
    process_withdrawal st0 { account_id := 2, amount := 1000, description := none } 7 =
      (.error (.badRequest "Insufficient funds"),
       [.beginTx, .lockRow 2, .readBalanceText 2]) :=
  @c3_withdrawal_insufficient_funds st0
    { account_id := 2, amount := 1000, description := none } 7 acctB
    (by decide) (by decide) (by decide)

/-- Claim C4: `update_balance` (the spec's adjustBalance) acquires the
exclusive row lock before reading the current balance (the trace starts
beginTx, lockRow, readBalanceText), computes `new = current + delta`, fails
with InsufficientFunds when `new < 0` — with no UPDATE in the trace and the
store transaction rolled back, so the stored balance is unchanged — and
otherwise persists `new` and returns the updated account.  Stated for an
account whose stored balance text parses, which is every account the engine
itself writes; the zero fallback for unparsable text is claim C10. -/
theorem c4_update_balance_contract {st : Store} {id : Nat} {delta : Decimal}
    {a : Account} (hf : findAccount st id = some a) (hp : a.balParses = true) :
    ((update_balance st id delta).2.take 3 =
        [Event.beginTx, Event.lockRow id, Event.readBalanceText id]) ∧
    (a.balance + delta < 0 →
        update_balance st id delta =
          (.error (.badRequest "Insufficient funds"),
           [Event.beginTx, Event.lockRow id, Event.readBalanceText id])) ∧
    (0 ≤ a.balance + delta →
        ∃ st2 acc,
          (update_balance st id delta).1 = .ok (st2, acc) ∧
          acc.balance = a.balance + delta ∧
          balanceOf st2 id = some (a.balance + delta)) := by
  have hcur : parsedBalance a = a.balance := by
    unfold parsedBalance
    rw [if_pos hp]
  refine ⟨?_, ?_, ?_⟩
  · simp only [update_balance, hf, hcur]
    split <;> rfl
  · intro hneg
    simp only [update_balance, hf, hcur]
    rw [if_pos hneg]
  · intro hpos
    simp only [update_balance, hf, hcur]
    rw [if_neg (not_lt.mpr hpos)]
    refine ⟨_, _, rfl, rfl, ?_⟩
    unfold balanceOf findAccount
    show ((overwriteBalance st.accounts id (a.balance + delta)).find?
        (fun b => b.id = id)).map Account.balance = _
    rw [find?_overwriteBalance]
    have hraw : st.accounts.find? (fun b => b.id = id) = some a := hf
    rw [hraw]
    simp only [Option.map_some']
    rw [if_pos (findAccount_id hf)]

/-- Witness for C4: adjusting account 1 (balance 100) by -30. -/
theorem c4_witness :
    ((update_balance st0 1 (-30)).2.take 3 =
        [Event.beginTx, Event.lockRow 1, Event.readBalanceText 1]) ∧
    (acctA.balance + -30 < 0 →
        update_balance st0 1 (-30) =
          (.error (.badRequest "Insufficient funds"),
           [Event.beginTx, Event.lockRow 1, Event.readBalanceText 1])) ∧
    (0 ≤ acctA.balance + -30 →
        ∃ st2 acc,
          (update_balance st0 1 (-30)).1 = .ok (st2, acc) ∧
          acc.balance = acctA.balance + -30 ∧
          balanceOf st2 1 = some (acctA.balance + -30)) :=
  c4_update_balance_contract (by decide) (by decide)

/-- Claim C5: for every request type — TRANSFER, DEPOSIT, WITHDRAWAL, and the
generic creation endpoint — a request whose amount is zero or negative is
rejected by the handler validation with an empty event trace: no `beginTx`
appears, so no store transaction is begun and no balance or transaction
record changes. -/
theorem c5_nonpositive_amount_rejected (st : Store) (uid tid : Nat) :
    (∀ req : TransferRequest, req.amount ≤ 0 →
        transfer_handler st uid req tid =
          (.error (.validation "Invalid transfer data"), [])) ∧
    (∀ req : DepositRequest, req.amount ≤ 0 →
        deposit_handler st uid req tid =
          (.error (.validation "Invalid deposit data"), [])) ∧
    (∀ req : WithdrawalRequest, req.amount ≤ 0 →
        withdrawal_handler st uid req tid =
          (.error (.validation "Invalid withdrawal data"), [])) ∧
    (∀ req : CreateTransactionRequest, req.amount ≤ 0 →
        create_transaction_handler st uid req tid =
          (.error (.validation "Invalid transaction data"), [])) := by
  refine ⟨?_, ?_, ?_, ?_⟩ <;> intro req hle
  · simp [transfer_handler, validate_positive_amount, if_pos hle]
  · simp [deposit_handler, validate_positive_amount, if_pos hle]
  · simp [withdrawal_handler, validate_positive_amount, if_pos hle]
  · simp [create_transaction_handler, validate_positive_amount, if_pos hle]

/-- Witness for C5: one zero-or-negative-amount request per entry point. -/
theorem c5_witness :
    transfer_handler st0 5
        { sender_account_id := 1, receiver_account_id := 2, amount := 0, description := none } 9 =
      (.error (.validation "Invalid transfer data"), []) ∧
    deposit_handler st0 5 { account_id := 1, amount := -3, description := none } 9 =
      (.error (.validation "Invalid deposit data"), []) ∧
    withdrawal_handler st0 5 { account_id := 1, amount := 0, description := none } 9 =
      (.error (.validation "Invalid withdrawal data"), []) ∧
    create_transaction_handler st0 5
        { transaction_type := "DEPOSIT", sender_account_id := none, receiver_account_id := some 1,
          amount := -7, currency := "USD", description := none } 9 =
      (.error (.validation "Invalid transaction data"), []) :=
  ⟨(c5_nonpositive_amount_rejected st0 5 9).1 _ (by decide),
   (c5_nonpositive_amount_rejected st0 5 9).2.1 _ (by decide),
   (c5_nonpositive_amount_rejected st0 5 9).2.2.1 _ (by decide),
   (c5_nonpositive_amount_rejected st0 5 9).2.2.2 _ (by decide)⟩

/-- Claim C6: a transfer between two existing, distinct accounts whose
currencies differ fails with CurrencyMismatch
(`badRequest "Currency mismatch between accounts"`); the trace shows only
begin and the two locks — no record insert, no balance UPDATE — and the
error rolls the store transaction back, so neither balance changes and no
record is persisted. -/
theorem c6_transfer_currency_mismatch {st : Store} {req : TransferRequest} {tid : Nat}
    {sa ra : Account}
    (hneq : req.sender_account_id ≠ req.receiver_account_id)
    (hfs : findAccount st req.sender_account_id = some sa)
    (hfr : findAccount st req.receiver_account_id = some ra)
    (hcur : sa.currency ≠ ra.currency) :
    process_transfer st req tid =
      (.error (.badRequest "Currency mismatch between accounts"),
       [.beginTx, .lockRow req.sender_account_id, .lockRow req.receiver_account_id]) := by
  simp only [process_transfer, hfs, hfr]
  rw [if_neg hneq, if_pos hcur]

/-- Witness for C6: transferring from USD account 1 to EUR account 4. -/
theorem c6_witness :
    process_transfer st0
        { sender_account_id := 1, receiver_account_id := 4, amount := 10, description := none } 11 =
      (.error (.badRequest "Currency mismatch between accounts"),
       [.beginTx, .lockRow 1, .lockRow 4]) :=
  @c6_transfer_currency_mismatch st0
    { sender_account_id := 1, receiver_account_id := 4, amount := 10, description := none }
    11 acctA acctD (by decide) (by decide) (by decide) (by decide)

/-- Claim C7: a transfer whose sender equals its receiver fails with
SelfTransfer (`badRequest "Cannot transfer to the same account"`); the trace
is exactly `[beginTx]`, so no row lock is taken, and the error rolls the
store transaction back, leaving every balance and the ledger unchanged. -/
theorem c7_self_transfer_rejected_before_lock {st : Store} {req : TransferRequest}
    {tid : Nat} (hself : req.sender_account_id = req.receiver_account_id) :
    process_transfer st req tid =
      (.error (.badRequest "Cannot transfer to the same account"), [.beginTx]) ∧
    lockSeq (process_transfer st req tid).2 = [] := by
  have h : process_transfer st req tid =
      (.error (.badRequest "Cannot transfer to the same account"), [.beginTx]) := by
    simp only [process_transfer]
    rw [if_pos hself]
  exact ⟨h, by rw [h]; rfl⟩

/-- Witness for C7: transferring from account 1 to itself. -/
theorem c7_witness :
    process_transfer st0
        { sender_account_id := 1, receiver_account_id := 1, amount := 10, description := none } 13 =
      (.error (.badRequest "Cannot transfer to the same account"), [.beginTx]) ∧
    lockSeq (process_transfer st0
        { sender_account_id := 1, receiver_account_id := 1, amount := 10, description := none } 13).2 = [] :=
  c7_self_transfer_rejected_before_lock (by decide)

/-- Counterexample for C8: over the same unordered pair of accounts 1 and 2
of the fixture store, the transfer 1 to 2 locks the rows in order [1, 2]
while the transfer 2 to 1 locks them in order [2, 1] — the lock order
depends on which account is the sender, so it is not deterministic in the
unordered pair. -/
theorem c8_counterexample_lock_order :
    lockSeq (process_transfer st0
        { sender_account_id := 1, receiver_account_id := 2, amount := 10, description := none } 41).2 ≠
      lockSeq (process_transfer st0
        { sender_account_id := 2, receiver_account_id := 1, amount := 10, description := none } 42).2 := by
  decide

/-- Claim C8 as amended: in `process_transfer` the two account rows are
locked sender first, then receiver — the order is determined by the
direction of the request and does depend on which account is the sender,
not on a canonical order of the unordered pair of ids. -/
theorem c8_amended_locks_sender_then_receiver {st : Store} {req : TransferRequest}
    {tid : Nat} {sa ra : Account}
    (hneq : req.sender_account_id ≠ req.receiver_account_id)
    (hfs : findAccount st req.sender_account_id = some sa)
    (hfr : findAccount st req.receiver_account_id = some ra) :
    lockSeq (process_transfer st req tid).2 =
      [req.sender_account_id, req.receiver_account_id] := by
  simp only [process_transfer, hfs, hfr]
  rw [if_neg hneq]
  split
  next hcur => simp [lockSeq]
  next hcur =>
    split
    next hfunds => simp [lockSeq]
    next hfunds =>
      split
      next e evs1 heq =>
        have h2 : evs1 = [Event.sqlUpdateBalance req.sender_account_id] := by
          have h0 := congrArg Prod.snd heq
          rw [update_account_balance_snd] at h0
          exact h0.symm
        simp [lockSeq, h2]
      next stA evs1 heq =>
        have h2 : evs1 = [Event.sqlUpdateBalance req.sender_account_id] := by
          have h0 := congrArg Prod.snd heq
          rw [update_account_balance_snd] at h0
          exact h0.symm
        split
        next e2 evs2 heq2 =>
          have h3 : evs2 = [Event.sqlUpdateBalance req.receiver_account_id] := by
            have h0 := congrArg Prod.snd heq2
            rw [update_account_balance_snd] at h0
            exact h0.symm
          simp [lockSeq, h2, h3]
        next stB evs2 heq2 =>
          have h3 : evs2 = [Event.sqlUpdateBalance req.receiver_account_id] := by
            have h0 := congrArg Prod.snd heq2
            rw [update_account_balance_snd] at h0
            exact h0.symm
          simp [lockSeq, h2, h3]

/-- Witness for the amended C8: the transfer 2 to 1 locks [2, 1]. -/
theorem c8_amended_witness :
    lockSeq (process_transfer st0
        { sender_account_id := 2, receiver_account_id := 1, amount := 10, description := none } 42).2 =
      [2, 1] :=
  @c8_amended_locks_sender_then_receiver st0
    { sender_account_id := 2, receiver_account_id := 1, amount := 10, description := none }
    42 acctB acctA (by decide) (by decide) (by decide)

/-- Claim C9: account creation fails with NotFound when the owner user does
not exist; a currency that is not a 3-character code is rejected by the
`CreateAccountRequest` length validation at the API boundary (the service
itself performs no currency check); otherwise a newly created account is
returned whose balance is exactly 0. -/
theorem c9_create_account_contract (st : Store) (uid : Nat) (currency : String)
    (newId : Nat) :
    (currency.length ≠ 3 →
        create_account_handler st uid currency newId =
          .error (.validation "Invalid account data")) ∧
    (currency.length = 3 → uid ∉ st.users →
        create_account_handler st uid currency newId =
          .error (.notFound "User not found")) ∧
    (currency.length = 3 → uid ∈ st.users →
        ∃ st2 acc,
          create_account_handler st uid currency newId = .ok (st2, acc) ∧
          acc.balance = 0 ∧ acc.user_id = uid ∧ acc.currency = currency) := by
  refine ⟨?_, ?_, ?_⟩
  · intro hbad
    simp [create_account_handler, hbad]
  · intro h3 habs
    simp [create_account_handler, h3, create_account, habs]
  · intro h3 hmem
    refine ⟨⟨st.users, st.accounts ++ [⟨newId, uid, 0, true, currency⟩], st.txns⟩,
      ⟨newId, uid, 0, true, currency⟩, ?_, rfl, rfl, rfl⟩
    simp [create_account_handler, h3, create_account, hmem]

/-- Witness for C9: a malformed currency, a missing owner, and a successful
creation for user 10. -/
theorem c9_witness :
    create_account_handler st0 99 "USDT" 77 = .error (.validation "Invalid account data") ∧
    create_account_handler st0 99 "USD" 77 = .error (.notFound "User not found") ∧
    ∃ st2 acc, create_account_handler st0 10 "USD" 77 = .ok (st2, acc) ∧
      acc.balance = 0 ∧ acc.user_id = 10 ∧ acc.currency = "USD" :=
  ⟨(c9_create_account_contract st0 99 "USDT" 77).1 (by decide),
   (c9_create_account_contract st0 99 "USD" 77).2.1 (by decide) (by decide),
   (c9_create_account_contract st0 10 "USD" 77).2.2 (by decide) (by decide)⟩

/-- Claim C10: for an account row whose stored balance text fails to parse,
the engine silently substitutes zero: a positive-amount withdrawal or
transfer from it fails with InsufficientFunds regardless of the true stored
NUMERIC value, and `update_balance` treats the current balance as 0 —
failing with InsufficientFunds for any negative delta and persisting exactly
`delta` for any non-negative delta. -/
theorem c10_unparsable_balance_treated_as_zero {st : Store} {i r : Nat}
    {a rb : Account} {amt : Decimal} {desc : Option String} {tid : Nat}
    (hf : findAccount st i = some a) (hp : a.balParses = false)
    (hr : findAccount st r = some rb) (hneq : i ≠ r)
    (hcur : a.currency = rb.currency) (hpos : 0 < amt) :
    ((process_withdrawal st { account_id := i, amount := amt, description := desc } tid).1 =
        .error (.badRequest "Insufficient funds")) ∧
    ((process_transfer st
          { sender_account_id := i, receiver_account_id := r,
            amount := amt, description := desc } tid).1 =
        .error (.badRequest "Insufficient funds")) ∧
    (∀ delta : Decimal, delta < 0 →
        (update_balance st i delta).1 = .error (.badRequest "Insufficient funds")) ∧
    (∀ delta : Decimal, 0 ≤ delta →
        ∃ st2 acc, (update_balance st i delta).1 = .ok (st2, acc) ∧
          acc.balance = delta) := by
  have hzero : parsedBalance a = 0 := by
    unfold parsedBalance
    rw [hp]
    rfl
  refine ⟨?_, ?_, ?_, ?_⟩
  · simp only [process_withdrawal, hf, hzero]
    rw [if_pos hpos]
  · simp only [process_transfer, hf, hr, hzero]
    rw [if_neg hneq, if_neg (fun hc => hc hcur), if_pos hpos]
  · intro delta hneg
    simp only [update_balance, hf, hzero, zero_add]
    rw [if_pos hneg]
  · intro delta hge
    simp only [update_balance, hf, hzero, zero_add]
    rw [if_neg (not_lt.mpr hge)]
    exact ⟨_, _, rfl, rfl⟩

/-- Witness for C10: account 3 stores the NUMERIC value 100 as unparsable
text, yet a withdrawal of 5 and a transfer of 5 are both rejected with
InsufficientFunds, and adjustBalance computes from zero. -/
theorem c10_witness :
    ((process_withdrawal st0 { account_id := 3, amount := 5, description := none } 7).1 =
        .error (.badRequest "Insufficient funds")) ∧
    ((process_transfer st0
          { sender_account_id := 3, receiver_account_id := 1,
            amount := 5, description := none } 7).1 =
        .error (.badRequest "Insufficient funds")) ∧
    (∀ delta : Decimal, delta < 0 →
        (update_balance st0 3 delta).1 = .error (.badRequest "Insufficient funds")) ∧
    (∀ delta : Decimal, 0 ≤ delta →
        ∃ st2 acc, (update_balance st0 3 delta).1 = .ok (st2, acc) ∧
          acc.balance = delta) :=
  @c10_unparsable_balance_treated_as_zero st0 3 1 acctC acctA 5 none 7
    (by decide) (by decide) (by decide) (by decide) (by decide) (by decide)

end TxnManager
